import Mathlib

/-!
Verification development for the spotify-themes-analyser data API.

This file gives a shallow embedding, in Lean 4, of the orchestration and
aggregation core of the repository:

* the concurrent batch fetchers `LyricsService.get_lyrics_list`
  (src/api/services/lyrics_service.py) and
  `AnalysisService.get_emotional_profiles`
  (src/api/services/analysis_service.py);
* the insights pipeline `InsightsService.get_top_emotions` and its helpers
  `_aggregate_emotions`, `_get_average_emotions`, `_check_data_not_empty`
  and `_process_emotions` (src/api/services/insights_service.py);
* the genre aggregation `SpotifyDataService.get_top_genres`
  (src/api/services/spotify/spotify_data_service.py).

Modelling conventions:

* Python floats are modelled as exact rationals (`ℚ`); `round(x, 2)` is
  modelled as round-half-to-even at two decimals on rationals
  (`pyRound2`), the rounding mode of Python's `round`.
* Async fetches are modelled by explicit per-item outcome functions
  `request → Except error response`; `asyncio.gather(..., return_exceptions=True)`
  followed by the `isinstance` success filter is `List.filterMap Except.toOption`
  over the outcomes, which are collected in input order exactly as `gather`
  preserves the order of its argument list.
* Python's stable sorts (`sorted(..., reverse=True)`, `list.sort(reverse=True)`)
  are modelled by a stable insertion sort `sortedByDesc` that inserts every
  element after all earlier elements with a greater-or-equal key; stable
  sorts agree extensionally, so this is the function computed by CPython.
* Python dicts preserve key insertion order; a `defaultdict` counting loop
  is modelled by the first-seen key list `dictKeys` plus a count per key.
-/

/-- Round-half-to-even of a rational to an integer, the rounding rule used by
Python's built-in `round`. -/
def roundHalfEven (x : ℚ) : ℤ :=
  let f : ℤ := ⌊x⌋
  let r : ℚ := x - (f : ℚ)
  if r < 1/2 then f
  else if 1/2 < r then f + 1
  else if f % 2 = 0 then f else f + 1

/-- Model of Python's `round(x, 2)` on the exact-rational reading of the
program's numbers. -/
def pyRound2 (x : ℚ) : ℚ := (roundHalfEven (x * 100) : ℚ) / 100

/-! ## Data model (src/api/data_structures/models.py) -/

/-- Artist entry carried on a track (`SpotifyTrackArtist`): id and name. -/
structure SpotifyTrackArtist where
  id : String
  name : String
deriving DecidableEq, Inhabited

/-- Spotify track as consumed by the insights pipeline: the fields the
pipeline reads (`id`, `name`, `artist`); presentation-only fields (images,
urls, album, popularity, ...) are not read by the verified code and are
omitted from the embedding. -/
structure SpotifyTrack where
  id : String
  name : String
  artist : SpotifyTrackArtist
deriving DecidableEq, Inhabited

/-- Request for the lyrics of one track (`LyricsRequest`). -/
structure LyricsRequest where
  track_id : String
  artist_name : String
  track_title : String
deriving DecidableEq, Inhabited

/-- Response of the lyrics API for one track (`LyricsResponse`). -/
structure LyricsResponse where
  track_id : String
  artist_name : String
  track_title : String
  lyrics : String
deriving DecidableEq, Inhabited

/-- Request for the emotional profile of one track's lyrics
(`EmotionalProfileRequest`). -/
structure EmotionalProfileRequest where
  track_id : String
  lyrics : String
deriving DecidableEq, Inhabited

/-- The fixed set of 15 emotion channels, in the declaration order of the
fields of the pydantic model `EmotionalProfile` (equally the declaration
order of the `Emotion` enum). -/
inductive Emotion where
  | joy | sadness | anger | fear | love | hope | nostalgia | loneliness
  | confidence | despair | excitement | mystery | defiance | gratitude
  | spirituality
deriving DecidableEq, Inhabited, Fintype

/-- String value of each emotion channel, as in the `Emotion` enum and the
field names of `EmotionalProfile`. -/
def Emotion.name : Emotion → String
  | .joy => "joy"
  | .sadness => "sadness"
  | .anger => "anger"
  | .fear => "fear"
  | .love => "love"
  | .hope => "hope"
  | .nostalgia => "nostalgia"
  | .loneliness => "loneliness"
  | .confidence => "confidence"
  | .despair => "despair"
  | .excitement => "excitement"
  | .mystery => "mystery"
  | .defiance => "defiance"
  | .gratitude => "gratitude"
  | .spirituality => "spirituality"

/-- The 15 channels in declaration order: the key order produced by
`EmotionalProfile.model_dump().items()`. -/
def emotionList : List Emotion :=
  [.joy, .sadness, .anger, .fear, .love, .hope, .nostalgia, .loneliness,
   .confidence, .despair, .excitement, .mystery, .defiance, .gratitude,
   .spirituality]

/-- Emotional profile of one track's lyrics (`EmotionalProfile`): one
fraction per channel.  Pydantic validates each field into `[0, 1]`; the
fractions are modelled as exact rationals. -/
structure EmotionalProfile where
  joy : ℚ
  sadness : ℚ
  anger : ℚ
  fear : ℚ
  love : ℚ
  hope : ℚ
  nostalgia : ℚ
  loneliness : ℚ
  confidence : ℚ
  despair : ℚ
  excitement : ℚ
  mystery : ℚ
  defiance : ℚ
  gratitude : ℚ
  spirituality : ℚ
deriving DecidableEq, Inhabited

/-- Field lookup of an `EmotionalProfile` by channel. -/
def EmotionalProfile.get (p : EmotionalProfile) : Emotion → ℚ
  | .joy => p.joy
  | .sadness => p.sadness
  | .anger => p.anger
  | .fear => p.fear
  | .love => p.love
  | .hope => p.hope
  | .nostalgia => p.nostalgia
  | .loneliness => p.loneliness
  | .confidence => p.confidence
  | .despair => p.despair
  | .excitement => p.excitement
  | .mystery => p.mystery
  | .defiance => p.defiance
  | .gratitude => p.gratitude
  | .spirituality => p.spirituality

/-- Emotional-profile response for one track (`EmotionalProfileResponse`). -/
structure EmotionalProfileResponse where
  track_id : String
  lyrics : String
  emotional_profile : EmotionalProfile
deriving DecidableEq, Inhabited

/-- Aggregate record returned per emotion (`TopEmotion`): channel name,
average fraction rounded to two decimals, and the id of the track with the
single highest fraction for that channel. -/
structure TopEmotion where
  name : String
  percentage : ℚ
  track_id : String
deriving DecidableEq, Inhabited

/-- Spotify artist as consumed by `get_top_genres`: only the genre-label
list is read by the verified code. -/
structure SpotifyArtist where
  id : String
  name : String
  genres : List String
deriving DecidableEq, Inhabited

/-- Ranked genre record (`TopGenre`) as constructed by `get_top_genres`:
`TopGenre(name=genre, count=count)`. -/
structure TopGenre where
  name : String
  count : ℕ
deriving DecidableEq, Inhabited

/-! ## Error taxonomy

Each upstream service defines its own exception subtree
(generic / unauthorised / not-found); only the message is observable
through the wrapping performed by `InsightsService`. -/

/-- Exceptions of `SpotifyDataService` (music/spotify_data_service.py):
the generic `SpotifyDataServiceException` and its `Unauthorised` and
`NotFound` subclasses. -/
inductive SpotifyDataServiceError where
  | generic (message : String)
  | unauthorised (message : String)
  | notFound (message : String)
deriving DecidableEq, Inhabited

/-- Message carried by a `SpotifyDataServiceError`. -/
def SpotifyDataServiceError.message : SpotifyDataServiceError → String
  | .generic m => m
  | .unauthorised m => m
  | .notFound m => m

/-- Exceptions of `LyricsService`: `LyricsServiceException` and its
`NotFound` subclass. -/
inductive LyricsServiceError where
  | generic (message : String)
  | notFound (message : String)
deriving DecidableEq, Inhabited

/-- Exceptions of `AnalysisService`: `AnalysisServiceException`. -/
inductive AnalysisServiceError where
  | generic (message : String)
deriving DecidableEq, Inhabited

/-- Exception raised by `InsightsService` (`InsightsServiceException`). -/
inductive InsightsError where
  | exception (message : String)
deriving DecidableEq, Inhabited

/-! ## Concurrent batch fetchers -/

namespace LyricsService

/-- Embedding of `LyricsService.get_lyrics_list`
(src/api/services/lyrics_service.py, lines 143-172).  `fetch` is the
per-item outcome of `get_lyrics` for each request.  The source builds one
task per request (`_create_lyrics_tasks`), awaits them all with
`asyncio.gather(*tasks, return_exceptions=True)` - which yields one result
per request in input order - and keeps the results that are
`LyricsResponse` instances, dropping the exception entries. -/
def get_lyrics_list (fetch : LyricsRequest → Except LyricsServiceError LyricsResponse)
    (lyrics_requests : List LyricsRequest) : List LyricsResponse :=
  (lyrics_requests.map fetch).filterMap Except.toOption

end LyricsService

namespace AnalysisService

/-- Embedding of `AnalysisService.get_emotional_profiles`
(src/api/services/analysis_service.py, lines 167-196), structured exactly
like `LyricsService.get_lyrics_list`: gather all per-item outcomes in input
order, keep the `EmotionalProfileResponse` instances. -/
def get_emotional_profiles
    (fetch : EmotionalProfileRequest → Except AnalysisServiceError EmotionalProfileResponse)
    (requests : List EmotionalProfileRequest) : List EmotionalProfileResponse :=
  (requests.map fetch).filterMap Except.toOption

end AnalysisService

/-! ## Stable descending sort

Python's `sorted(..., key=k, reverse=True)` and `list.sort(key=k,
reverse=True)` are stable: elements with equal keys keep their input order.
A stable sort is extensionally unique, and is computed by the insertion
sort below, which inserts each element after every earlier element whose
key is greater than or equal to its own. -/

/-- Insert `x` into `l` directly before the first element whose key is
strictly below `key x` (hence after all elements with key `≥ key x`). -/
def insertDesc {α β : Type} [LinearOrder β] (key : α → β) (x : α) : List α → List α
  | [] => [x]
  | y :: ys => if key y < key x then x :: y :: ys else y :: insertDesc key x ys

/-- Stable descending sort by `key`; extensionally the function computed by
Python's stable `sorted(..., key=key, reverse=True)`. -/
def sortedByDesc {α β : Type} [LinearOrder β] (key : α → β) (l : List α) : List α :=
  l.foldl (fun acc x => insertDesc key x acc) []

/-! ## Insights aggregation (src/api/services/insights_service.py) -/

namespace InsightsService

/-- Value stored under one emotion key of the `total_emotions` defaultdict
of `_aggregate_emotions`: `{"total": t, "max_track": {"track_id": tid,
"percentage": p}}`. -/
structure EmotionAgg where
  total : ℚ
  maxTrackId : Option String
  maxPercentage : ℚ
deriving DecidableEq, Inhabited

/-- Default value of the `total_emotions` defaultdict:
`{"total": 0, "max_track": {"track_id": None, "percentage": 0}}`. -/
def defaultAgg : EmotionAgg := ⟨0, none, 0⟩

/-- One iteration of the outer loop of `_aggregate_emotions` for one
sample `a`: the inner loop updates every channel's entry once, with the
sample's fraction for that channel.  The dict is modelled as a function
from channels to entries, so the inner loop is the pointwise update. -/
def aggStep (acc : Emotion → EmotionAgg) (a : EmotionalProfileResponse) :
    Emotion → EmotionAgg :=
  fun e =>
    let cur := acc e
    let percentage := a.emotional_profile.get e
    { total := cur.total + percentage
      maxTrackId := if cur.maxPercentage < percentage then some a.track_id else cur.maxTrackId
      maxPercentage := if cur.maxPercentage < percentage then percentage else cur.maxPercentage }

/-- Embedding of `InsightsService._aggregate_emotions` (lines 72-103):
fold the per-sample update over the analyses, starting from the
defaultdict default.  The update condition is the source's strict
comparison `percentage > total_emotions[emotion]["max_track"]["percentage"]`. -/
def aggregate_emotions (emotional_analyses : List EmotionalProfileResponse) :
    Emotion → EmotionAgg :=
  emotional_analyses.foldl aggStep (fun _ => defaultAgg)

/-- Key list of the `total_emotions` defaultdict after the loop of
`_aggregate_emotions`.  A Python dict enumerates keys in first-insertion
order; every sample touches all 15 channels in declaration order
(`model_dump().items()`), so after at least one sample the key order is
the declaration order, and with no samples the dict is empty. -/
def aggKeys (emotional_analyses : List EmotionalProfileResponse) : List Emotion :=
  if emotional_analyses.isEmpty then [] else emotionList

/-- Embedding of `InsightsService._get_average_emotions` (lines 105-140):
one `TopEmotion` per dict entry whose recorded max track is not `None`,
with `percentage = round(total / result_count, 2)`, in dict key order. -/
def get_average_emotions (emotional_analyses : List EmotionalProfileResponse)
    (result_count : ℕ) : List TopEmotion :=
  (aggKeys emotional_analyses).filterMap (fun e =>
    let info := aggregate_emotions emotional_analyses e
    match info.maxTrackId with
    | none => none
    | some track_id =>
        some ⟨e.name, pyRound2 (info.total / (result_count : ℚ)), track_id⟩)

/-- Embedding of `InsightsService._process_emotions` (lines 165-187):
aggregate, average over `len(emotional_profiles)`, then
`sorted(..., key=lambda emotion: emotion.percentage, reverse=True)`. -/
def process_emotions (emotional_profiles : List EmotionalProfileResponse) :
    List TopEmotion :=
  sortedByDesc (fun emotion => emotion.percentage)
    (get_average_emotions emotional_profiles emotional_profiles.length)

/-- Upstream collaborators of one `get_top_emotions` call: the awaited
result of `spotify_data_service.get_top_items`, and the per-item outcomes
of `lyrics_service.get_lyrics` and `analysis_service._get_emotional_profile`
used by the two batch fetchers.  (`SpotifyTrack(**item.model_dump())` is
the identity on well-typed items and is embedded as such.) -/
structure InsightsDeps where
  topItemsResult : Except SpotifyDataServiceError (List SpotifyTrack)
  fetchLyrics : LyricsRequest → Except LyricsServiceError LyricsResponse
  fetchEmotionalProfile : EmotionalProfileRequest → Except AnalysisServiceError EmotionalProfileResponse

/-- Error message raised by `_check_data_not_empty` (lines 142-163):
`f"No {label} found. Cannot proceed further with analysis."`. -/
def emptyMessage (label : String) : String :=
  "No " ++ label ++ " found. Cannot proceed further with analysis."

/-- Wrapped message of the `except (...ServiceException) as e` handler of
`get_top_emotions` (lines 255-258): `f"Service failure - {e}"`. -/
def serviceFailureMessage (msg : String) : String := "Service failure - " ++ msg

/-- Embedding of `InsightsService.get_top_emotions` (lines 189-262):
fetch top tracks (any `SpotifyDataServiceException` is caught and
re-raised wrapped), fail if empty; build one lyrics request per track and
batch-fetch; fail if empty; build one profile request per lyrics document
and batch-fetch; fail if empty; aggregate and truncate to `limit`
(`[:limit]`; the route validates `1 ≤ limit ≤ 15`, so `List.take`).  The
`_check_data_not_empty` failures are `InsightsServiceException`s raised
directly (not service exceptions), so they propagate unwrapped. -/
def get_top_emotions (deps : InsightsDeps) (limit : ℕ) :
    Except InsightsError (List TopEmotion) :=
  match deps.topItemsResult with
  | .error e => .error (.exception (serviceFailureMessage e.message))
  | .ok top_items =>
    if top_items.length = 0 then .error (.exception (emptyMessage "top tracks"))
    else
      let top_tracks := top_items
      let lyrics_requests := top_tracks.map (fun entry =>
        { track_id := entry.id, artist_name := entry.artist.name, track_title := entry.name })
      let lyrics_list := LyricsService.get_lyrics_list deps.fetchLyrics lyrics_requests
      if lyrics_list.length = 0 then .error (.exception (emptyMessage "lyrics"))
      else
        let emotional_profile_requests := lyrics_list.map (fun entry =>
          { track_id := entry.track_id, lyrics := entry.lyrics })
        let emotional_profiles :=
          AnalysisService.get_emotional_profiles deps.fetchEmotionalProfile
            emotional_profile_requests
        if emotional_profiles.length = 0 then
          .error (.exception (emptyMessage "emotional profiles"))
        else
          .ok ((process_emotions emotional_profiles).take limit)

end InsightsService

/-! ## Genre aggregation (src/api/services/spotify/spotify_data_service.py) -/

namespace SpotifyDataService

/-- One step of building a Python dict's key list: a lookup on a missing
key appends it, an existing key keeps its position. -/
def insertKey (acc : List String) (g : String) : List String :=
  if g ∈ acc then acc else acc ++ [g]

/-- Keys of the `genres_map` defaultdict after the counting loop of
`get_top_genres`, in first-seen (insertion) order. -/
def dictKeys (gs : List String) : List String :=
  gs.foldl insertKey []

/-- Embedding of `SpotifyDataService.get_top_genres`
(src/api/services/spotify/spotify_data_service.py, lines 394-437), taking
the awaited result of `get_top_artists(..., limit=50)` as input:
`if not top_artists: return []`; flatten every artist's genre list;
count occurrences per genre in a `defaultdict(int)`; build one `TopGenre`
per dict entry in key order; `sort(key=lambda genre: genre.count,
reverse=True)` (stable).  The function takes no limit argument and does
not truncate its result. -/
def get_top_genres (top_artists : List SpotifyArtist) : List TopGenre :=
  if top_artists.isEmpty then []
  else
    let all_genres := (top_artists.map (fun artist => artist.genres)).flatten
    let top_genres := (dictKeys all_genres).map (fun genre =>
      TopGenre.mk genre (all_genres.countP (fun x => x = genre)))
    sortedByDesc (fun genre => genre.count) top_genres

end SpotifyDataService

/-! ## Lemmas about the batch fetchers -/

section BatchLemmas

variable {ρ σ ε : Type}

/-- Length of a `filterMap`: the input length minus the number of dropped
items. -/
theorem filterMap_length_sub (g : ρ → Option σ) (l : List ρ) :
    (l.filterMap g).length = l.length - l.countP (fun r => (g r).isNone) := by
  induction l with
  | nil => simp
  | cons r rs ih =>
    have hle := List.countP_le_length (l := rs) (p := fun r => (g r).isNone)
    cases h : g r with
    | none => simp [List.filterMap_cons, List.countP_cons, h, ih]
    | some a =>
      simp only [List.filterMap_cons, List.countP_cons, h, Option.isNone_some,
        List.length_cons, ih]
      simp
      omega

/-- Values of a `filterMap` are the images of the kept items, in input
order. -/
theorem filterMap_eq_map_filter [Inhabited σ] (g : ρ → Option σ) (l : List ρ) :
    l.filterMap g
      = (l.filter (fun r => (g r).isSome)).map (fun r => (g r).getD default) := by
  induction l with
  | nil => simp
  | cons r rs ih =>
    cases h : g r with
    | none => simp [List.filterMap_cons, List.filter_cons, h, ih]
    | some a => simp [List.filterMap_cons, List.filter_cons, h, ih]

/-- When every item is dropped, the result is empty. -/
theorem filterMap_nil_of_all_none (g : ρ → Option σ) (l : List ρ)
    (h : ∀ r ∈ l, g r = none) : l.filterMap g = [] := by
  induction l with
  | nil => simp
  | cons r rs ih =>
    simp only [List.filterMap_cons, h r (by simp)]
    exact ih (fun r hr => h r (by simp [hr]))

/-- Specialisation to the batch-fetch pattern: collecting the successes of
`reqs.map fetch` is a `filterMap` over the requests. -/
theorem batch_eq_filterMap (fetch : ρ → Except ε σ) (reqs : List ρ) :
    (reqs.map fetch).filterMap Except.toOption
      = reqs.filterMap (fun r => (fetch r).toOption) :=
  List.filterMap_map _ _ _

end BatchLemmas

/-! ## Lemmas about the stable descending sort -/

section SortLemmas

variable {α β : Type} [LinearOrder β] (key : α → β)

theorem insertDesc_perm (x : α) (l : List α) : (insertDesc key x l).Perm (x :: l) := by
  induction l with
  | nil => exact List.Perm.refl _
  | cons y ys ih =>
    unfold insertDesc
    split
    · exact List.Perm.refl _
    · exact (ih.cons y).trans (List.Perm.swap x y ys)

theorem mem_insertDesc {z x : α} {l : List α} :
    z ∈ insertDesc key x l ↔ z = x ∨ z ∈ l := by
  induction l with
  | nil => simp [insertDesc]
  | cons y ys ih =>
    unfold insertDesc
    split
    · simp
    · simp only [List.mem_cons, ih]
      tauto

theorem insertDesc_sorted (x : α) {l : List α}
    (h : l.Pairwise (fun a b => key b ≤ key a)) :
    (insertDesc key x l).Pairwise (fun a b => key b ≤ key a) := by
  induction l with
  | nil => simp [insertDesc]
  | cons y ys ih =>
    unfold insertDesc
    split
    case isTrue hlt =>
      refine List.Pairwise.cons ?_ h
      intro z hz
      rcases List.mem_cons.mp hz with rfl | hz
      · exact le_of_lt hlt
      · exact le_trans (List.rel_of_pairwise_cons h hz) (le_of_lt hlt)
    case isFalse hge =>
      refine List.Pairwise.cons ?_ (ih (List.Pairwise.of_cons h))
      intro z hz
      rcases (mem_insertDesc key).mp hz with rfl | hz
      · exact not_lt.mp hge
      · exact List.rel_of_pairwise_cons h hz

theorem insertDesc_filter_eq (c : β) (x : α) {l : List α}
    (h : l.Pairwise (fun a b => key b ≤ key a)) :
    (insertDesc key x l).filter (fun y => key y = c)
      = l.filter (fun y => key y = c) ++ (if key x = c then [x] else []) := by
  induction l with
  | nil => by_cases hx : key x = c <;> simp [insertDesc, hx]
  | cons y ys ih =>
    unfold insertDesc
    split
    case isTrue hlt =>
      by_cases hx : key x = c
      · have hnil : (y :: ys).filter (fun z => decide (key z = c)) = [] := by
          rw [List.filter_eq_nil_iff]
          intro z hz
          have hzle : key z ≤ key y := by
            rcases List.mem_cons.mp hz with rfl | hz
            · exact le_refl _
            · exact List.rel_of_pairwise_cons h hz
          have hzlt : key z < c := lt_of_le_of_lt hzle (hx ▸ hlt)
          simp [ne_of_lt hzlt]
        rw [List.filter_cons_of_pos (by simp [hx]), hnil, if_pos hx]
        rfl
      · rw [List.filter_cons_of_neg (by simp [hx]), if_neg hx, List.append_nil]
    case isFalse hge =>
      have ihys := ih (List.Pairwise.of_cons h)
      simp only [List.filter_cons, ihys]
      by_cases hy : key y = c <;> simp [hy]

theorem sortedByDesc_sorted (l : List α) :
    (sortedByDesc key l).Pairwise (fun a b => key b ≤ key a) := by
  suffices h : ∀ (l acc : List α), acc.Pairwise (fun a b => key b ≤ key a) →
      (l.foldl (fun acc x => insertDesc key x acc) acc).Pairwise
        (fun a b => key b ≤ key a) by
    exact h l [] (by simp)
  intro l
  induction l with
  | nil => intro acc hacc; exact hacc
  | cons x xs ih =>
    intro acc hacc
    exact ih _ (insertDesc_sorted key x hacc)

theorem sortedByDesc_perm (l : List α) : (sortedByDesc key l).Perm l := by
  suffices h : ∀ (l acc : List α),
      (l.foldl (fun acc x => insertDesc key x acc) acc).Perm (l ++ acc) by
    simpa [sortedByDesc] using h l []
  intro l
  induction l with
  | nil => intro acc; simp
  | cons x xs ih =>
    intro acc
    exact ((ih (insertDesc key x acc)).trans
      ((List.Perm.append_left xs (insertDesc_perm key x acc)).trans List.perm_middle))

theorem sortedByDesc_filter_eq (c : β) (l : List α) :
    (sortedByDesc key l).filter (fun y => key y = c)
      = l.filter (fun y => key y = c) := by
  suffices h : ∀ (l acc : List α), acc.Pairwise (fun a b => key b ≤ key a) →
      (l.foldl (fun acc x => insertDesc key x acc) acc).filter (fun y => key y = c)
        = acc.filter (fun y => key y = c) ++ l.filter (fun y => key y = c) by
    simpa using h l [] (by simp)
  intro l
  induction l with
  | nil => intro acc hacc; simp
  | cons x xs ih =>
    intro acc hacc
    have step := ih (insertDesc key x acc) (insertDesc_sorted key x hacc)
    calc ((x :: xs).foldl (fun acc x => insertDesc key x acc) acc).filter
            (fun y => key y = c)
        = (insertDesc key x acc).filter (fun y => key y = c)
            ++ xs.filter (fun y => key y = c) := step
      _ = (acc.filter (fun y => key y = c) ++ (if key x = c then [x] else []))
            ++ xs.filter (fun y => key y = c) := by
          rw [insertDesc_filter_eq key c x hacc]
      _ = acc.filter (fun y => key y = c)
            ++ (x :: xs).filter (fun y => key y = c) := by
          by_cases hx : key x = c <;> simp [hx, List.filter_cons]

theorem sortedByDesc_length (l : List α) : (sortedByDesc key l).length = l.length :=
  (sortedByDesc_perm key l).length_eq

theorem mem_sortedByDesc {z : α} {l : List α} :
    z ∈ sortedByDesc key l ↔ z ∈ l :=
  (sortedByDesc_perm key l).mem_iff

end SortLemmas

/-! ## Lemmas about the emotion aggregation -/

namespace InsightsService

/-- Per-channel view of one `aggStep` update: the entry of one channel
after processing one sample. -/
def channelStep (e : Emotion) (cur : EmotionAgg) (a : EmotionalProfileResponse) :
    EmotionAgg :=
  let percentage := a.emotional_profile.get e
  { total := cur.total + percentage
    maxTrackId := if cur.maxPercentage < percentage then some a.track_id else cur.maxTrackId
    maxPercentage := if cur.maxPercentage < percentage then percentage else cur.maxPercentage }

theorem aggregate_apply (l : List EmotionalProfileResponse) (e : Emotion) :
    aggregate_emotions l e = l.foldl (channelStep e) defaultAgg := by
  suffices h : ∀ (l : List EmotionalProfileResponse) (init : Emotion → EmotionAgg),
      (l.foldl aggStep init) e = l.foldl (channelStep e) (init e) by
    exact h l _
  intro l
  induction l with
  | nil => intro init; rfl
  | cons a l ih => intro init; exact ih (aggStep init a)

/-- Highest fraction seen for channel `e` across the analyses (0 when no
sample exceeds 0), the final `max_track.percentage` of the defaultdict
entry. -/
def channelMax (emotional_analyses : List EmotionalProfileResponse) (e : Emotion) : ℚ :=
  emotional_analyses.foldl (fun m a => max m (a.emotional_profile.get e)) 0

theorem le_foldl_max {α : Type} (g : α → ℚ) :
    ∀ (l : List α) (i : ℚ), i ≤ l.foldl (fun m x => max m (g x)) i := by
  intro l
  induction l with
  | nil => intro i; exact le_refl i
  | cons a l ih => intro i; exact le_trans (le_max_left i (g a)) (ih (max i (g a)))

theorem foldl_max_of_all_le {α : Type} (g : α → ℚ) :
    ∀ (l : List α) (i : ℚ), (∀ a ∈ l, g a ≤ i) →
      l.foldl (fun m x => max m (g x)) i = i := by
  intro l
  induction l with
  | nil => intro i _; rfl
  | cons a l ih =>
    intro i h
    have h1 : max i (g a) = i := max_eq_left (h a (by simp))
    simp only [List.foldl_cons, h1]
    exact ih i (fun a ha => h a (by simp [ha]))

theorem foldl_channelStep_total (e : Emotion) :
    ∀ (l : List EmotionalProfileResponse) (cur : EmotionAgg),
      (l.foldl (channelStep e) cur).total
        = cur.total + (l.map (fun a => a.emotional_profile.get e)).sum := by
  intro l
  induction l with
  | nil => intro cur; simp
  | cons a l ih =>
    intro cur
    simp only [List.foldl_cons, ih, List.map_cons, List.sum_cons]
    dsimp only [channelStep]
    ring

/-- Running total of a channel is the sum of the channel's fractions over
the analyses, in input order. -/
theorem aggregate_total (l : List EmotionalProfileResponse) (e : Emotion) :
    (aggregate_emotions l e).total
      = (l.map (fun a => a.emotional_profile.get e)).sum := by
  rw [aggregate_apply, foldl_channelStep_total]
  simp [defaultAgg]

theorem foldl_channelStep_maxTrackId (e : Emotion) :
    ∀ (l : List EmotionalProfileResponse) (cur : EmotionAgg),
      (l.foldl (channelStep e) cur).maxTrackId
        = if cur.maxPercentage
              < l.foldl (fun m a => max m (a.emotional_profile.get e)) cur.maxPercentage
          then (l.find? (fun a => a.emotional_profile.get e
                  = l.foldl (fun m a => max m (a.emotional_profile.get e))
                      cur.maxPercentage)).map (fun a => a.track_id)
          else cur.maxTrackId := by
  intro l
  induction l with
  | nil =>
    intro cur
    simp
  | cons a l ih =>
    intro cur
    by_cases hv : cur.maxPercentage < a.emotional_profile.get e
    · have hstep : channelStep e cur a
          = ⟨cur.total + a.emotional_profile.get e, some a.track_id,
             a.emotional_profile.get e⟩ := by
        simp [channelStep, hv]
      rw [List.foldl_cons, hstep, ih]
      dsimp only
      have hmax : max cur.maxPercentage (a.emotional_profile.get e)
          = a.emotional_profile.get e := max_eq_right (le_of_lt hv)
      rw [show (a :: l).foldl (fun m a => max m (a.emotional_profile.get e))
            cur.maxPercentage
          = l.foldl (fun m a => max m (a.emotional_profile.get e))
              (a.emotional_profile.get e) by rw [List.foldl_cons, hmax]]
      have hvM : a.emotional_profile.get e
          ≤ l.foldl (fun m a => max m (a.emotional_profile.get e))
              (a.emotional_profile.get e) :=
        le_foldl_max _ l _
      have hcond : cur.maxPercentage
          < l.foldl (fun m a => max m (a.emotional_profile.get e))
              (a.emotional_profile.get e) := lt_of_lt_of_le hv hvM
      rw [if_pos hcond]
      by_cases hveq : a.emotional_profile.get e
          = l.foldl (fun m a => max m (a.emotional_profile.get e))
              (a.emotional_profile.get e)
      · rw [List.find?_cons_of_pos _ (by simpa using hveq),
          if_neg (by rw [← hveq]; exact lt_irrefl _)]
        rfl
      · rw [List.find?_cons_of_neg _ (by simpa using hveq),
          if_pos (lt_of_le_of_ne hvM hveq)]
    · have hstep : channelStep e cur a
          = ⟨cur.total + a.emotional_profile.get e, cur.maxTrackId,
             cur.maxPercentage⟩ := by
        simp [channelStep, hv]
      rw [List.foldl_cons, hstep, ih]
      dsimp only
      have hmax : max cur.maxPercentage (a.emotional_profile.get e)
          = cur.maxPercentage := max_eq_left (not_lt.mp hv)
      rw [show (a :: l).foldl (fun m a => max m (a.emotional_profile.get e))
            cur.maxPercentage
          = l.foldl (fun m a => max m (a.emotional_profile.get e))
              cur.maxPercentage by rw [List.foldl_cons, hmax]]
      by_cases hcond : cur.maxPercentage
          < l.foldl (fun m a => max m (a.emotional_profile.get e)) cur.maxPercentage
      · have hne : ¬ (a.emotional_profile.get e
            = l.foldl (fun m a => max m (a.emotional_profile.get e))
                cur.maxPercentage) :=
          ne_of_lt (lt_of_le_of_lt (not_lt.mp hv) hcond)
        rw [if_pos hcond, if_pos hcond, List.find?_cons_of_neg _ (by simpa using hne)]
      · rw [if_neg hcond, if_neg hcond]

/-- Characterisation of the recorded max track of a channel: `None` when no
sample's fraction exceeds the defaultdict's initial 0, otherwise the track
id of the FIRST sample (in input order) whose fraction equals the channel's
maximum — the strict `>` update keeps the earlier sample on exact ties. -/
theorem aggregate_maxTrackId (l : List EmotionalProfileResponse) (e : Emotion) :
    (aggregate_emotions l e).maxTrackId
      = if 0 < channelMax l e
        then (l.find? (fun a => a.emotional_profile.get e = channelMax l e)).map
            (fun a => a.track_id)
        else none := by
  rw [aggregate_apply, foldl_channelStep_maxTrackId]
  rfl

end InsightsService

/-! ## Lemmas about the averaged emotions and the pipeline -/

namespace InsightsService

/-- Membership in `_get_average_emotions`: each entry is the averaged,
rounded record of a channel whose recorded max track is not `None`. -/
theorem mem_get_average_emotions {l : List EmotionalProfileResponse} {n : ℕ}
    {te : TopEmotion} :
    te ∈ get_average_emotions l n ↔
      ∃ e ∈ aggKeys l, ∃ tid,
        (aggregate_emotions l e).maxTrackId = some tid ∧
        te = ⟨e.name, pyRound2 ((aggregate_emotions l e).total / (n : ℚ)), tid⟩ := by
  unfold get_average_emotions
  rw [List.mem_filterMap]
  constructor
  · rintro ⟨e, he, hfe⟩
    refine ⟨e, he, ?_⟩
    cases h : (aggregate_emotions l e).maxTrackId with
    | none => simp only [h] at hfe; exact Option.noConfusion hfe
    | some tid =>
      simp only [h, Option.some_inj] at hfe
      exact ⟨tid, rfl, hfe.symm⟩
  · rintro ⟨e, he, tid, h, rfl⟩
    exact ⟨e, he, by simp only [h]⟩

theorem get_average_emotions_length_le (l : List EmotionalProfileResponse) (n : ℕ) :
    (get_average_emotions l n).length ≤ 15 := by
  unfold get_average_emotions
  refine le_trans (List.length_filterMap_le _ _) ?_
  unfold aggKeys
  split
  · simp
  · simp [emotionList]

theorem mem_process_emotions {l : List EmotionalProfileResponse} {te : TopEmotion} :
    te ∈ process_emotions l ↔ te ∈ get_average_emotions l l.length := by
  unfold process_emotions
  exact mem_sortedByDesc _

theorem process_emotions_length (l : List EmotionalProfileResponse) :
    (process_emotions l).length = (get_average_emotions l l.length).length :=
  sortedByDesc_length _ _

/-- The channel names are pairwise distinct strings. -/
theorem emotion_name_inj : ∀ e₁ e₂ : Emotion, e₁.name = e₂.name → e₁ = e₂ := by
  decide

/-- Short-circuit on empty top tracks: the pipeline raises the
`_check_data_not_empty` error for the "top tracks" stage. -/
theorem get_top_emotions_empty_tracks (deps : InsightsDeps) (limit : ℕ)
    (h : deps.topItemsResult = .ok []) :
    get_top_emotions deps limit = .error (.exception (emptyMessage "top tracks")) := by
  unfold get_top_emotions
  rw [h]
  rfl

/-- A failed top-items fetch propagates as the wrapped service failure. -/
theorem get_top_emotions_upstream_error (deps : InsightsDeps) (limit : ℕ)
    (e : SpotifyDataServiceError) (h : deps.topItemsResult = .error e) :
    get_top_emotions deps limit
      = .error (.exception (serviceFailureMessage e.message)) := by
  unfold get_top_emotions
  rw [h]

/-- Per-track lyrics requests built by the pipeline. -/
def lyricsRequestsOf (top_tracks : List SpotifyTrack) : List LyricsRequest :=
  top_tracks.map (fun entry =>
    { track_id := entry.id, artist_name := entry.artist.name, track_title := entry.name })

/-- Per-document emotional-profile requests built by the pipeline. -/
def profileRequestsOf (lyrics_list : List LyricsResponse) : List EmotionalProfileRequest :=
  lyrics_list.map (fun entry => { track_id := entry.track_id, lyrics := entry.lyrics })

/-- When every stage produces at least one item, the pipeline succeeds and
returns the aggregated, truncated top emotions; per-item failures inside
the two batches are invisible beyond their absence from the survivor
lists. -/
theorem get_top_emotions_ok (deps : InsightsDeps) (limit : ℕ)
    (ts : List SpotifyTrack) (h : deps.topItemsResult = .ok ts) (hts : ts ≠ [])
    (hlyr : LyricsService.get_lyrics_list deps.fetchLyrics (lyricsRequestsOf ts) ≠ [])
    (hprof : AnalysisService.get_emotional_profiles deps.fetchEmotionalProfile
        (profileRequestsOf
          (LyricsService.get_lyrics_list deps.fetchLyrics (lyricsRequestsOf ts))) ≠ []) :
    get_top_emotions deps limit
      = .ok ((process_emotions
          (AnalysisService.get_emotional_profiles deps.fetchEmotionalProfile
            (profileRequestsOf
              (LyricsService.get_lyrics_list deps.fetchLyrics
                (lyricsRequestsOf ts))))).take limit) := by
  simp only [lyricsRequestsOf, profileRequestsOf] at hlyr hprof
  unfold get_top_emotions
  simp only [h]
  rw [if_neg (by simpa [List.length_eq_zero] using hts)]
  rw [if_neg (by simpa [List.length_eq_zero] using hlyr)]
  rw [if_neg (by simpa [List.length_eq_zero] using hprof)]
  rfl

end InsightsService

/-! ## Lemmas about the genre aggregation -/

namespace SpotifyDataService

theorem mem_foldl_insertKey :
    ∀ (gs acc : List String) (x : String),
      x ∈ gs.foldl insertKey acc ↔ x ∈ acc ∨ x ∈ gs := by
  intro gs
  induction gs with
  | nil => intro acc x; simp
  | cons g gs ih =>
    intro acc x
    rw [List.foldl_cons, ih]
    unfold insertKey
    split
    case isTrue hg =>
      constructor
      · rintro (hx | hx)
        · exact Or.inl hx
        · exact Or.inr (by simp [hx])
      · rintro (hx | hx)
        · exact Or.inl hx
        · rcases List.mem_cons.mp hx with rfl | hx
          · exact Or.inl hg
          · exact Or.inr hx
    case isFalse hg =>
      simp only [List.mem_append, List.mem_singleton, List.mem_cons]
      tauto

theorem nodup_foldl_insertKey :
    ∀ (gs acc : List String), acc.Nodup → (gs.foldl insertKey acc).Nodup := by
  intro gs
  induction gs with
  | nil => intro acc h; exact h
  | cons g gs ih =>
    intro acc h
    refine ih _ ?_
    unfold insertKey
    split
    · exact h
    · simp [List.nodup_append, h]
      simpa using fun hg => (by assumption : ¬ g ∈ acc) hg

theorem mem_dictKeys {gs : List String} {x : String} :
    x ∈ dictKeys gs ↔ x ∈ gs := by
  unfold dictKeys
  rw [mem_foldl_insertKey]
  simp

theorem nodup_dictKeys (gs : List String) : (dictKeys gs).Nodup :=
  nodup_foldl_insertKey gs [] (by simp)

theorem dictKeys_perm_dedup (gs : List String) : (dictKeys gs).Perm gs.dedup :=
  (List.perm_ext_iff_of_nodup (nodup_dictKeys gs) (List.nodup_dedup gs)).mpr
    (fun a => by rw [mem_dictKeys, List.mem_dedup])

/-- The per-key counts over the first-seen key list sum to the total number
of genre-tag occurrences. -/
theorem dictKeys_counts_sum (gs : List String) :
    ((dictKeys gs).map (fun g => gs.countP (fun x => x = g))).sum = gs.length := by
  have h2 : ∀ g : String, gs.countP (fun x => x = g) = gs.count g := by
    intro g
    rw [List.count_eq_countP]
    apply List.countP_congr
    intro y hy
    by_cases hy2 : y = g <;> simp [hy2]
  calc ((dictKeys gs).map (fun g => gs.countP (fun x => x = g))).sum
      = ((dictKeys gs).map (fun g => gs.count g)).sum := by
        rw [List.map_congr_left (fun g _ => h2 g)]
    _ = (gs.dedup.map fun g => gs.count g).sum :=
        ((dictKeys_perm_dedup gs).map _).sum_eq
    _ = gs.length := List.sum_map_count_dedup_eq_length gs

end SpotifyDataService

/-! ## Claim theorems -/

/-- C1: for every list of N item requests given to a batch fetcher
(`LyricsService.get_lyrics_list` or `AnalysisService.get_emotional_profiles`)
in which F of the per-item fetches fail, the returned list contains exactly
the N−F successful responses in the same relative order as the input
requests (it equals the input-ordered list of successful requests mapped to
their responses), and when F=N the result is the empty list rather than an
error. -/
theorem claim_C1
    (fetchL : LyricsRequest → Except LyricsServiceError LyricsResponse)
    (reqsL : List LyricsRequest)
    (fetchA : EmotionalProfileRequest → Except AnalysisServiceError EmotionalProfileResponse)
    (reqsA : List EmotionalProfileRequest) :
    ((LyricsService.get_lyrics_list fetchL reqsL).length
        = reqsL.length - reqsL.countP (fun r => (fetchL r).toOption.isNone)
      ∧ LyricsService.get_lyrics_list fetchL reqsL
        = (reqsL.filter (fun r => (fetchL r).toOption.isSome)).map
            (fun r => ((fetchL r).toOption).getD default)
      ∧ ((∀ r ∈ reqsL, (fetchL r).toOption = none) →
          LyricsService.get_lyrics_list fetchL reqsL = []))
    ∧ ((AnalysisService.get_emotional_profiles fetchA reqsA).length
        = reqsA.length - reqsA.countP (fun r => (fetchA r).toOption.isNone)
      ∧ AnalysisService.get_emotional_profiles fetchA reqsA
        = (reqsA.filter (fun r => (fetchA r).toOption.isSome)).map
            (fun r => ((fetchA r).toOption).getD default)
      ∧ ((∀ r ∈ reqsA, (fetchA r).toOption = none) →
          AnalysisService.get_emotional_profiles fetchA reqsA = [])) := by
  constructor
  · refine ⟨?_, ?_, ?_⟩
    · rw [LyricsService.get_lyrics_list, batch_eq_filterMap]
      exact filterMap_length_sub _ _
    · rw [LyricsService.get_lyrics_list, batch_eq_filterMap]
      exact filterMap_eq_map_filter _ _
    · intro h
      rw [LyricsService.get_lyrics_list, batch_eq_filterMap]
      exact filterMap_nil_of_all_none _ _ h
  · refine ⟨?_, ?_, ?_⟩
    · rw [AnalysisService.get_emotional_profiles, batch_eq_filterMap]
      exact filterMap_length_sub _ _
    · rw [AnalysisService.get_emotional_profiles, batch_eq_filterMap]
      exact filterMap_eq_map_filter _ _
    · intro h
      rw [AnalysisService.get_emotional_profiles, batch_eq_filterMap]
      exact filterMap_nil_of_all_none _ _ h

/-- Witness fixture: a lyrics request and per-item fetchers where every
item fails. -/
def wLyricsReq : LyricsRequest := ⟨"1", "artist", "title"⟩

def wFetchLyricsFail : LyricsRequest → Except LyricsServiceError LyricsResponse :=
  fun _ => .error (.notFound "lyrics not found")

def wFetchProfFail : EmotionalProfileRequest → Except AnalysisServiceError EmotionalProfileResponse :=
  fun _ => .error (.generic "analysis failed")

/-- Witness for C1 at a concrete one-request batch whose single fetch
fails: the batch returns the empty list. -/
theorem claim_C1_witness :
    (∀ r ∈ [wLyricsReq], (wFetchLyricsFail r).toOption = none)
    ∧ LyricsService.get_lyrics_list wFetchLyricsFail [wLyricsReq] = []
    ∧ AnalysisService.get_emotional_profiles wFetchProfFail [] = [] :=
  ⟨fun _ _ => rfl,
   (claim_C1 wFetchLyricsFail [wLyricsReq] wFetchProfFail []).1.2.2 (fun _ _ => rfl),
   (claim_C1 wFetchLyricsFail [wLyricsReq] wFetchProfFail []).2.2.2
     (fun r hr => absurd hr (List.not_mem_nil r))⟩

/-- C2: for every non-empty list of M emotional-profile samples processed
by `InsightsService.get_top_emotions` (whose successful result is
`(process_emotions samples).take K` for the caller's requested limit K),
the percentage of each returned `TopEmotion` equals
`round(sum of that channel's fractions across the M samples / M, 2)`, and
the number of returned entries is at most `min 15 K`. -/
theorem claim_C2 (analyses : List EmotionalProfileResponse) (K : ℕ)
    (h : analyses ≠ []) :
    (∀ te ∈ (InsightsService.process_emotions analyses).take K,
        ∃ e : Emotion, te.name = e.name ∧
          te.percentage = pyRound2
            ((analyses.map (fun a => a.emotional_profile.get e)).sum
              / (analyses.length : ℚ)))
    ∧ ((InsightsService.process_emotions analyses).take K).length ≤ min 15 K := by
  constructor
  · intro te hte
    have hte2 : te ∈ InsightsService.process_emotions analyses :=
      List.mem_of_mem_take hte
    rw [InsightsService.mem_process_emotions,
      InsightsService.mem_get_average_emotions] at hte2
    obtain ⟨e, _, tid, _, rfl⟩ := hte2
    exact ⟨e, rfl, by rw [InsightsService.aggregate_total]⟩
  · refine le_min ?_ ?_
    · calc ((InsightsService.process_emotions analyses).take K).length
          ≤ (InsightsService.process_emotions analyses).length := by
            rw [List.length_take]; exact min_le_right _ _
        _ = (InsightsService.get_average_emotions analyses analyses.length).length :=
            InsightsService.process_emotions_length analyses
        _ ≤ 15 := InsightsService.get_average_emotions_length_le _ _
    · exact List.length_take_le _ _

/-- Two-sample input for the aggregation scenario: track "1" with
joy 0.2, defiance 0.2, spirituality 0.15, gratitude 0.15 and all other
channels 0. -/
def scenarioProfile1 : EmotionalProfile :=
  { joy := 1/5, sadness := 0, anger := 0, fear := 0, love := 0, hope := 0,
    nostalgia := 0, loneliness := 0, confidence := 0, despair := 0,
    excitement := 0, mystery := 0, defiance := 1/5, gratitude := 3/20,
    spirituality := 3/20 }

/-- Track "2" of the scenario: defiance 0.3, nostalgia 0.24, sadness 0.15
and all other channels 0. -/
def scenarioProfile2 : EmotionalProfile :=
  { joy := 0, sadness := 3/20, anger := 0, fear := 0, love := 0, hope := 0,
    nostalgia := 6/25, loneliness := 0, confidence := 0, despair := 0,
    excitement := 0, mystery := 0, defiance := 3/10, gratitude := 0,
    spirituality := 0 }

/-- The scenario's two emotion samples, in input order. -/
def scenarioSamples : List EmotionalProfileResponse :=
  [⟨"1", "", scenarioProfile1⟩, ⟨"2", "", scenarioProfile2⟩]

/-- Witness for C2 at the concrete two-sample scenario with K = 3. -/
theorem claim_C2_witness :
    scenarioSamples ≠ [] ∧
      ((∀ te ∈ (InsightsService.process_emotions scenarioSamples).take 3,
          ∃ e : Emotion, te.name = e.name ∧
            te.percentage = pyRound2
              ((scenarioSamples.map (fun a => a.emotional_profile.get e)).sum
                / (scenarioSamples.length : ℚ)))
        ∧ ((InsightsService.process_emotions scenarioSamples).take 3).length
            ≤ min 15 3) :=
  ⟨List.cons_ne_nil _ _, claim_C2 scenarioSamples 3 (List.cons_ne_nil _ _)⟩

/-- C3: the list returned by `InsightsService.get_top_emotions` (equal to
`(process_emotions analyses).take K`) is non-increasing in percentage, and
entries with equal percentage appear in the original declaration order of
the 15 emotion channels: for each percentage value, the returned entries
with that percentage are an order-preserved prefix of the pre-sort list
`_get_average_emotions`, which enumerates the channels in declaration
order (its keys are `emotionList`). -/
theorem claim_C3 (analyses : List EmotionalProfileResponse) (K : ℕ) :
    ((InsightsService.process_emotions analyses).take K).Pairwise
        (fun a b => b.percentage ≤ a.percentage)
    ∧ ∀ p : ℚ,
        ((InsightsService.process_emotions analyses).take K).filter
            (fun te => te.percentage = p)
          <+: (InsightsService.get_average_emotions analyses analyses.length).filter
            (fun te => te.percentage = p) := by
  constructor
  · exact List.Pairwise.sublist (List.take_sublist K _)
      (sortedByDesc_sorted (fun te : TopEmotion => te.percentage)
        (InsightsService.get_average_emotions analyses analyses.length))
  · intro p
    have h1 := (List.take_prefix K (InsightsService.process_emotions analyses)).filter
      (fun te : TopEmotion => decide (te.percentage = p))
    have h2 : (InsightsService.process_emotions analyses).filter
        (fun te => te.percentage = p)
      = (InsightsService.get_average_emotions analyses analyses.length).filter
        (fun te => te.percentage = p) :=
      sortedByDesc_filter_eq (fun te : TopEmotion => te.percentage) p
        (InsightsService.get_average_emotions analyses analyses.length)
    rw [h2] at h1
    exact h1

/-- C4: the track recorded for a channel by
`InsightsService._aggregate_emotions` is selected with a strict `>`
comparison.  First conjunct: for every channel and sample list, the
recorded max track is `None` when no fraction exceeds 0, and otherwise it
is the track id of the FIRST sample (in input order, via `List.find?`)
whose fraction attains the channel's maximum — so on exact ties the
earlier-input sample wins.  Second conjunct: the explicit two-sample tie,
where the earlier sample's id is kept, never the later one. -/
theorem claim_C4 :
    (∀ (analyses : List EmotionalProfileResponse) (e : Emotion),
      (InsightsService.aggregate_emotions analyses e).maxTrackId
        = if 0 < InsightsService.channelMax analyses e
          then (analyses.find? (fun a =>
              a.emotional_profile.get e = InsightsService.channelMax analyses e)).map
              (fun a => a.track_id)
          else none)
    ∧ (∀ (a b : EmotionalProfileResponse) (e : Emotion),
        0 < a.emotional_profile.get e →
        a.emotional_profile.get e = b.emotional_profile.get e →
        (InsightsService.aggregate_emotions [a, b] e).maxTrackId
          = some a.track_id) := by
  constructor
  · exact fun analyses e => InsightsService.aggregate_maxTrackId analyses e
  · intro a b e hpos heq
    have hmax : InsightsService.channelMax [a, b] e = a.emotional_profile.get e := by
      unfold InsightsService.channelMax
      simp only [List.foldl_cons, List.foldl_nil]
      rw [max_eq_right (le_of_lt hpos), max_eq_left (le_of_eq heq.symm)]
    rw [InsightsService.aggregate_maxTrackId, hmax, if_pos hpos,
      List.find?_cons_of_pos _ (by simp)]
    rfl

/-- Witness fixture for C4: two samples with an identical positive joy
fraction. -/
def wTieProfile : EmotionalProfile :=
  { joy := 1, sadness := 0, anger := 0, fear := 0, love := 0, hope := 0,
    nostalgia := 0, loneliness := 0, confidence := 0, despair := 0,
    excitement := 0, mystery := 0, defiance := 0, gratitude := 0,
    spirituality := 0 }

/-- Witness for C4: on an exact two-sample tie the earlier track "1" is
recorded, not the later track "2". -/
theorem claim_C4_witness :
    0 < (⟨"1", "", wTieProfile⟩ : EmotionalProfileResponse).emotional_profile.get .joy
    ∧ (⟨"1", "", wTieProfile⟩ : EmotionalProfileResponse).emotional_profile.get .joy
        = (⟨"2", "", wTieProfile⟩ : EmotionalProfileResponse).emotional_profile.get .joy
    ∧ (InsightsService.aggregate_emotions
        [⟨"1", "", wTieProfile⟩, ⟨"2", "", wTieProfile⟩] .joy).maxTrackId
        = some "1" :=
  ⟨one_pos, rfl, claim_C4.2 ⟨"1", "", wTieProfile⟩ ⟨"2", "", wTieProfile⟩ .joy one_pos rfl⟩

/-- C5: if the top-tracks fetch returns an empty list,
`InsightsService.get_top_emotions` raises the stage-named
`InsightsServiceException` whose message contains "top tracks", and the
result does not depend on the lyrics fetcher at all (the lyrics stage is
never invoked). -/
theorem claim_C5 (deps : InsightsService.InsightsDeps) (limit : ℕ)
    (h : deps.topItemsResult = .ok []) :
    InsightsService.get_top_emotions deps limit
        = .error (.exception (InsightsService.emptyMessage "top tracks"))
    ∧ (∃ fore aft, InsightsService.emptyMessage "top tracks"
        = fore ++ "top tracks" ++ aft)
    ∧ (∀ f, InsightsService.get_top_emotions { deps with fetchLyrics := f } limit
        = InsightsService.get_top_emotions deps limit) := by
  refine ⟨InsightsService.get_top_emotions_empty_tracks deps limit h,
    ⟨"No ", " found. Cannot proceed further with analysis.", rfl⟩, ?_⟩
  intro f
  rw [InsightsService.get_top_emotions_empty_tracks deps limit h,
    InsightsService.get_top_emotions_empty_tracks { deps with fetchLyrics := f } limit h]

/-- Witness fixture: dependencies whose top-items fetch yields zero
tracks. -/
def wDepsEmpty : InsightsService.InsightsDeps :=
  { topItemsResult := .ok []
    fetchLyrics := fun _ => .error (.generic "unused")
    fetchEmotionalProfile := fun _ => .error (.generic "unused") }

/-- Witness for C5 at concrete dependencies with zero top tracks. -/
theorem claim_C5_witness :
    wDepsEmpty.topItemsResult = .ok []
    ∧ InsightsService.get_top_emotions wDepsEmpty 5
        = .error (.exception (InsightsService.emptyMessage "top tracks")) :=
  ⟨rfl, (claim_C5 wDepsEmpty 5 rfl).1⟩

/-- C6: a systemic upstream failure — any `SpotifyDataServiceException`
(expired/invalid credentials = the `Unauthorised` subclass, transport or
protocol errors = the generic class), which is the only failure in the
pipeline not tied to a single batch item — aborts the whole pipeline
immediately with the wrapped "Service failure" error (first conjunct).
Per-item failures are absorbed only inside the batches: whenever every
stage's survivor list is non-empty the pipeline succeeds, regardless of
which individual items failed (second conjunct). -/
theorem claim_C6 (deps : InsightsService.InsightsDeps) (limit : ℕ) :
    (∀ err : SpotifyDataServiceError, deps.topItemsResult = .error err →
        InsightsService.get_top_emotions deps limit
          = .error (.exception (InsightsService.serviceFailureMessage err.message)))
    ∧ (∀ ts : List SpotifyTrack, deps.topItemsResult = .ok ts → ts ≠ [] →
        LyricsService.get_lyrics_list deps.fetchLyrics
            (InsightsService.lyricsRequestsOf ts) ≠ [] →
        AnalysisService.get_emotional_profiles deps.fetchEmotionalProfile
            (InsightsService.profileRequestsOf
              (LyricsService.get_lyrics_list deps.fetchLyrics
                (InsightsService.lyricsRequestsOf ts))) ≠ [] →
        InsightsService.get_top_emotions deps limit
          = .ok ((InsightsService.process_emotions
              (AnalysisService.get_emotional_profiles deps.fetchEmotionalProfile
                (InsightsService.profileRequestsOf
                  (LyricsService.get_lyrics_list deps.fetchLyrics
                    (InsightsService.lyricsRequestsOf ts))))).take limit)) :=
  ⟨fun err h => InsightsService.get_top_emotions_upstream_error deps limit err h,
   fun ts h hts hlyr hprof =>
     InsightsService.get_top_emotions_ok deps limit ts h hts hlyr hprof⟩

/-- Witness fixture: dependencies whose top-items fetch fails with
rejected credentials. -/
def wDepsAuthFail : InsightsService.InsightsDeps :=
  { topItemsResult := .error (.unauthorised "token expired")
    fetchLyrics := fun _ => .error (.generic "unused")
    fetchEmotionalProfile := fun _ => .error (.generic "unused") }

/-- Witness fixture: dependencies with one top track whose per-item
fetches succeed. -/
def wDepsOk : InsightsService.InsightsDeps :=
  { topItemsResult := .ok [⟨"1", "Track 1", ⟨"9", "Artist 1"⟩⟩]
    fetchLyrics := fun r => .ok ⟨r.track_id, r.artist_name, r.track_title, "la la"⟩
    fetchEmotionalProfile := fun r => .ok ⟨r.track_id, r.lyrics, wTieProfile⟩ }

/-- Witness for C6: the concrete credentials failure aborts with the
wrapped message, and a concrete all-successful pipeline returns `.ok`. -/
theorem claim_C6_witness :
    wDepsAuthFail.topItemsResult = .error (.unauthorised "token expired")
    ∧ InsightsService.get_top_emotions wDepsAuthFail 5
        = .error (.exception
            (InsightsService.serviceFailureMessage "token expired"))
    ∧ InsightsService.get_top_emotions wDepsOk 5
        = .ok ((InsightsService.process_emotions
            (AnalysisService.get_emotional_profiles wDepsOk.fetchEmotionalProfile
              (InsightsService.profileRequestsOf
                (LyricsService.get_lyrics_list wDepsOk.fetchLyrics
                  (InsightsService.lyricsRequestsOf
                    [⟨"1", "Track 1", ⟨"9", "Artist 1"⟩⟩]))))).take 5) :=
  ⟨rfl,
   (claim_C6 wDepsAuthFail 5).1 (.unauthorised "token expired") rfl,
   (claim_C6 wDepsOk 5).2 [⟨"1", "Track 1", ⟨"9", "Artist 1"⟩⟩] rfl
     (List.cons_ne_nil _ _) (by decide) (by decide)⟩

/-- Counterexample input for C7: one artist with two distinct genres. -/
def cexArtists : List SpotifyArtist := [⟨"1", "artist1", ["rock", "metal"]⟩]

/-- Counterexample to C7 as stated: `get_top_genres` does not truncate to
the caller's requested top K.  The function takes no limit argument; with
one artist carrying two genres and a requested K = 1, the claim demands at
most 1 entry, but the source returns both genre counts. -/
theorem claim_C7_counterexample :
    (SpotifyDataService.get_top_genres cexArtists).length = 2
    ∧ ¬ ((SpotifyDataService.get_top_genres cexArtists).length ≤ 1) := by
  decide

/-- C7 (amended): for every artist list returned by the fixed-size top-50
artists fetch, `get_top_genres` flattens all genre labels into one
multiset, counts occurrences per distinct genre, sorts in descending order
of count with ties broken by first-seen order (stable sort over the
first-seen key list), and returns the FULL ranked list — no truncation to
the caller's K takes place inside the function; the sum of the returned
counts equals the total number of genre-tag occurrences. -/
theorem claim_C7 (top_artists : List SpotifyArtist) :
    (SpotifyDataService.get_top_genres top_artists).Pairwise
        (fun a b => b.count ≤ a.count)
    ∧ (∀ c : ℕ,
        (SpotifyDataService.get_top_genres top_artists).filter
            (fun tg => tg.count = c)
          = (((SpotifyDataService.dictKeys
                ((top_artists.map (fun artist => artist.genres)).flatten)).map
              (fun genre => TopGenre.mk genre
                (((top_artists.map (fun artist => artist.genres)).flatten).countP
                  (fun x => x = genre)))).filter (fun tg => tg.count = c))
        ∨ top_artists = [])
    ∧ (∀ tg ∈ SpotifyDataService.get_top_genres top_artists,
        tg.count = ((top_artists.map (fun artist => artist.genres)).flatten).countP
          (fun x => x = tg.name))
    ∧ (∀ g : String,
        (∃ tg ∈ SpotifyDataService.get_top_genres top_artists, tg.name = g)
          ↔ g ∈ (top_artists.map (fun artist => artist.genres)).flatten)
    ∧ ((SpotifyDataService.get_top_genres top_artists).map
          (fun tg => tg.count)).sum
        = ((top_artists.map (fun artist => artist.genres)).flatten).length := by
  by_cases hA : top_artists.isEmpty
  · have hnil : top_artists = [] := List.isEmpty_iff.mp hA
    subst hnil
    refine ⟨by simp [SpotifyDataService.get_top_genres], fun c => Or.inr rfl,
      ?_, ?_, ?_⟩ <;> simp [SpotifyDataService.get_top_genres]
  · have hval : SpotifyDataService.get_top_genres top_artists
        = sortedByDesc (fun genre => genre.count)
            ((SpotifyDataService.dictKeys
                ((top_artists.map (fun artist => artist.genres)).flatten)).map
              (fun genre => TopGenre.mk genre
                (((top_artists.map (fun artist => artist.genres)).flatten).countP
                  (fun x => x = genre)))) := by
      unfold SpotifyDataService.get_top_genres
      rw [if_neg hA]
    refine ⟨?_, ?_, ?_, ?_, ?_⟩
    · rw [hval]
      exact sortedByDesc_sorted _ _
    · intro c
      left
      rw [hval]
      exact sortedByDesc_filter_eq (fun tg : TopGenre => tg.count) c _
    · intro tg htg
      rw [hval, mem_sortedByDesc] at htg
      obtain ⟨g, _, rfl⟩ := List.mem_map.mp htg
      rfl
    · intro g
      constructor
      · rintro ⟨tg, htg, rfl⟩
        rw [hval, mem_sortedByDesc] at htg
        obtain ⟨g', hg', rfl⟩ := List.mem_map.mp htg
        exact SpotifyDataService.mem_dictKeys.mp hg'
      · intro hg
        refine ⟨TopGenre.mk g
          (((top_artists.map (fun artist => artist.genres)).flatten).countP
            (fun x => x = g)), ?_, rfl⟩
        rw [hval, mem_sortedByDesc]
        exact List.mem_map.mpr ⟨g, SpotifyDataService.mem_dictKeys.mpr hg, rfl⟩
    · rw [hval]
      have hperm := (sortedByDesc_perm (fun tg : TopGenre => tg.count)
          ((SpotifyDataService.dictKeys
              ((top_artists.map (fun artist => artist.genres)).flatten)).map
            (fun genre => TopGenre.mk genre
              (((top_artists.map (fun artist => artist.genres)).flatten).countP
                (fun x => x = genre))))).map (fun tg => tg.count)
      rw [hperm.sum_eq, List.map_map]
      exact SpotifyDataService.dictKeys_counts_sum _

/-- Witness artist list: the six-artist scenario of the specification. -/
def wArtists : List SpotifyArtist :=
  [⟨"1", "artist1", ["rock", "metal", "emo", "pop-punk"]⟩,
   ⟨"2", "artist2", ["rock", "metal", "pop-punk"]⟩,
   ⟨"3", "artist3", []⟩,
   ⟨"4", "artist4", ["pop-punk"]⟩,
   ⟨"5", "artist5", ["metal"]⟩,
   ⟨"6", "artist6", ["metal"]⟩]

/-- Witness for the amended C7 at the six-artist scenario: "metal" is a
returned genre and its count is the number of "metal" tags. -/
theorem claim_C7_witness :
    (TopGenre.mk "metal" 4) ∈ SpotifyDataService.get_top_genres wArtists
    ∧ (TopGenre.mk "metal" 4).count
        = ((wArtists.map (fun artist => artist.genres)).flatten).countP
            (fun x => x = (TopGenre.mk "metal" 4).name) :=
  ⟨by decide, (claim_C7 wArtists).2.2.1 (TopGenre.mk "metal" 4) (by decide)⟩

/-- C8: if the top-artists fetch returns zero artists, `get_top_genres`
returns an empty list and does not raise, unlike the Insights
Orchestrator, whose `_check_data_not_empty` raises a stage-named
`InsightsServiceException` on an empty stage. -/
theorem claim_C8 :
    SpotifyDataService.get_top_genres [] = []
    ∧ ∀ (deps : InsightsService.InsightsDeps) (limit : ℕ),
        deps.topItemsResult = .ok [] →
        InsightsService.get_top_emotions deps limit
          = .error (.exception (InsightsService.emptyMessage "top tracks")) :=
  ⟨rfl, fun deps limit h => InsightsService.get_top_emotions_empty_tracks deps limit h⟩

/-- Witness for C8: the empty artist list yields `[]`, while the concrete
empty-tracks pipeline errors. -/
theorem claim_C8_witness :
    SpotifyDataService.get_top_genres [] = []
    ∧ InsightsService.get_top_emotions wDepsEmpty 3
        = .error (.exception (InsightsService.emptyMessage "top tracks")) :=
  ⟨claim_C8.1, claim_C8.2 wDepsEmpty 3 rfl⟩

/-- Evaluation of the emotion aggregation at the two scenario samples:
with M = 2, the ranked top-3 is defiance 0.25 (track "2"), nostalgia 0.12
(track "2"), joy 0.1 (track "1"). -/
theorem scenario_top3 :
    (InsightsService.process_emotions scenarioSamples).take 3
      = [⟨"defiance", 1/4, "2"⟩, ⟨"nostalgia", 3/25, "2"⟩, ⟨"joy", 1/10, "1"⟩] := by
  norm_num [InsightsService.process_emotions, InsightsService.get_average_emotions,
    InsightsService.aggKeys, InsightsService.aggregate_emotions,
    InsightsService.aggStep, InsightsService.defaultAgg, emotionList,
    EmotionalProfile.get, pyRound2, roundHalfEven, sortedByDesc, insertDesc,
    scenarioSamples, scenarioProfile1, scenarioProfile2, Emotion.name,
    List.foldl, List.filterMap]

/-- Counterexample to C9 as stated: on the claim's concrete input (all
channels other than those listed are 0), the ranked top-3 is NOT
[("defiance", 0.25, "2"), ("nostalgia", 0.14, "2"), ("sadness", 0.12,
"2")] — nostalgia's average is round(0.24/2, 2) = 0.12, not 0.14, and the
third entry is joy (average 0.1, track "1"), which outranks sadness,
spirituality and gratitude (averages 0.075 before rounding). -/
theorem claim_C9_counterexample :
    (InsightsService.process_emotions scenarioSamples).take 3
      ≠ [⟨"defiance", 0.25, "2"⟩, ⟨"nostalgia", 0.14, "2"⟩, ⟨"sadness", 0.12, "2"⟩] := by
  rw [scenario_top3]
  norm_num

/-- C9 (amended): for the concrete input of two emotion samples — track
"1" with joy 0.2, defiance 0.2, spirituality 0.15, gratitude 0.15 and all
other channels 0, and track "2" with defiance 0.3, nostalgia 0.24,
sadness 0.15 and all other channels 0 — the emotion aggregation with M = 2
returns as its ranked top 3: ("defiance", 0.25, "2"), ("nostalgia", 0.12,
"2"), ("joy", 0.1, "1"), each average computed as round(sum/2, 2). -/
theorem claim_C9 :
    (InsightsService.process_emotions scenarioSamples).take 3
      = [⟨"defiance", 0.25, "2"⟩, ⟨"nostalgia", 0.12, "2"⟩, ⟨"joy", 0.1, "1"⟩] := by
  rw [scenario_top3]
  norm_num

/-- C10: an emotion channel whose fraction is 0 in every sample is omitted
from the output entirely (second conjunct), and every returned
`TopEmotion` carries the track id of some input sample whose fraction for
that channel is strictly positive (first conjunct). -/
theorem claim_C10 (analyses : List EmotionalProfileResponse) (K : ℕ) :
    (∀ te ∈ (InsightsService.process_emotions analyses).take K,
        ∃ (e : Emotion) (a : EmotionalProfileResponse),
          te.name = e.name ∧ a ∈ analyses ∧ te.track_id = a.track_id ∧
            0 < a.emotional_profile.get e)
    ∧ (∀ e : Emotion, (∀ a ∈ analyses, a.emotional_profile.get e = 0) →
        ∀ te ∈ (InsightsService.process_emotions analyses).take K,
          te.name ≠ e.name) := by
  constructor
  · intro te hte
    have hte2 := List.mem_of_mem_take hte
    rw [InsightsService.mem_process_emotions,
      InsightsService.mem_get_average_emotions] at hte2
    obtain ⟨e, _, tid, hmax, rfl⟩ := hte2
    rw [InsightsService.aggregate_maxTrackId] at hmax
    by_cases hpos : 0 < InsightsService.channelMax analyses e
    · rw [if_pos hpos] at hmax
      obtain ⟨a, hfind, ha⟩ := Option.map_eq_some'.mp hmax
      have hpred := List.find?_some hfind
      simp only [decide_eq_true_eq] at hpred
      exact ⟨e, a, rfl, List.mem_of_find?_eq_some hfind, ha.symm,
        by rw [hpred]; exact hpos⟩
    · rw [if_neg hpos] at hmax
      exact Option.noConfusion hmax
  · intro e hz te hte hname
    have hte2 := List.mem_of_mem_take hte
    rw [InsightsService.mem_process_emotions,
      InsightsService.mem_get_average_emotions] at hte2
    obtain ⟨e', _, tid, hmax, rfl⟩ := hte2
    have he : e' = e := InsightsService.emotion_name_inj e' e hname
    subst he
    have hcm : InsightsService.channelMax analyses e' = 0 := by
      unfold InsightsService.channelMax
      exact InsightsService.foldl_max_of_all_le _ analyses 0
        (fun a ha => le_of_eq (hz a ha))
    rw [InsightsService.aggregate_maxTrackId, hcm] at hmax
    simp at hmax

/-- Witness for C10: anger is 0 in both scenario samples, so no returned
entry is named "anger". -/
theorem claim_C10_witness :
    (∀ a ∈ scenarioSamples, a.emotional_profile.get .anger = 0)
    ∧ (∀ te ∈ (InsightsService.process_emotions scenarioSamples).take 3,
        te.name ≠ (Emotion.anger).name) := by
  have hz : ∀ a ∈ scenarioSamples, a.emotional_profile.get .anger = 0 := by
    intro a ha
    simp only [scenarioSamples, List.mem_cons, List.not_mem_nil, or_false] at ha
    rcases ha with rfl | rfl <;> rfl
  exact ⟨hz, (claim_C10 scenarioSamples 3).2 .anger hz⟩
